import Mathlib

/-!
Shallow embedding of `homework.py`, a fitness tracker that computes
distance, mean speed and spent calories for three workout kinds
(Running, SportsWalking, Swimming) and renders a summary message.
Python floats are modelled by `ℚ` (all the arithmetic in the program is
field arithmetic plus one floor division); Python `x // y` on floats
returns `floor (x / y)` and is modelled by `Int.floor`.
-/

/-- The three `Training` subclasses, as a sum type.  Field order follows
each Python constructor: `Running(action, duration, weight)`,
`SportsWalking(action, duration, weight, height)`,
`Swimming(action, duration, weight, length_pool, count_pool)`. -/
inductive Training where
  | Running (action duration weight : ℚ)
  | SportsWalking (action duration weight height : ℚ)
  | Swimming (action duration weight length_pool count_pool : ℚ)
deriving DecidableEq, Repr

/-- Class constant `Training.M_IN_KM = 1000`. -/
def M_IN_KM : ℚ := 1000

/-- Class constant `Training.MINUTES_IN_HOURS = 60`. -/
def MINUTES_IN_HOURS : ℚ := 60

/-- Class constant `LEN_STEP`: `0.65` on the base class, overridden to
`1.38` in `Swimming`. -/
def LEN_STEP : Training → ℚ
  | .Swimming _ _ _ _ _ => 1.38
  | _ => 0.65

/-- Attribute `self.action` (step / stroke count). -/
def Training.action : Training → ℚ
  | .Running a _ _ => a
  | .SportsWalking a _ _ _ => a
  | .Swimming a _ _ _ _ => a

/-- Attribute `self.duration_km` (the duration in hours; the source
names the attribute `duration_km`). -/
def Training.duration_km : Training → ℚ
  | .Running _ d _ => d
  | .SportsWalking _ d _ _ => d
  | .Swimming _ d _ _ _ => d

/-- Attribute `self.weight` (kg). -/
def Training.weight : Training → ℚ
  | .Running _ _ w => w
  | .SportsWalking _ _ w _ => w
  | .Swimming _ _ w _ _ => w

/-- Method `Training.get_distance`:
`self.action * self.LEN_STEP / self.M_IN_KM`. -/
def Training.get_distance (t : Training) : ℚ :=
  t.action * LEN_STEP t / M_IN_KM

/-- Method `get_mean_speed`: the base class returns
`self.get_distance() / self.duration_km`; `Swimming` overrides it with
`self.length_pool * self.count_pool / self.M_IN_KM / self.duration_km`. -/
def Training.get_mean_speed : Training → ℚ
  | .Swimming _ d _ lp cp => lp * cp / M_IN_KM / d
  | t => t.get_distance / t.duration_km

/-- Class constant `Running.RUN_CALORIE_1 = 18`. -/
def RUN_CALORIE_1 : ℚ := 18

/-- Class constant `Running.RUN_CALORIE_2 = 20`. -/
def RUN_CALORIE_2 : ℚ := 20

/-- Class constant `SportsWalking.WALK_CALORIE_1 = 0.035`. -/
def WALK_CALORIE_1 : ℚ := 0.035

/-- Class constant `SportsWalking.WALK_CALORIE_2 = 0.029`. -/
def WALK_CALORIE_2 : ℚ := 0.029

/-- Class constant `Swimming.SWIM_CALORIE_1 = 1.1`. -/
def SWIM_CALORIE_1 : ℚ := 1.1

/-- Class constant `Swimming.SWIM_CALORIE_2 = 2`. -/
def SWIM_CALORIE_2 : ℚ := 2

/-- Method `get_spent_calories`, one arm per subclass override:
Running: `(RUN_CALORIE_1 * speed - RUN_CALORIE_2) * weight / M_IN_KM
* (duration * MINUTES_IN_HOURS)`;
SportsWalking: `(WALK_CALORIE_1 * weight + (speed ** 2 // height)
* WALK_CALORIE_2 * weight) * (duration * MINUTES_IN_HOURS)` where `//` is
floor division;
Swimming: `(speed + SWIM_CALORIE_1) * SWIM_CALORIE_2 * weight`. -/
def Training.get_spent_calories : Training → ℚ
  | .Running a d w =>
      (RUN_CALORIE_1 * (Training.Running a d w).get_mean_speed - RUN_CALORIE_2)
        * w / M_IN_KM * (d * MINUTES_IN_HOURS)
  | .SportsWalking a d w h =>
      (WALK_CALORIE_1 * w
        + ((⌊(Training.SportsWalking a d w h).get_mean_speed ^ 2 / h⌋ : ℤ) : ℚ)
          * WALK_CALORIE_2 * w)
        * (d * MINUTES_IN_HOURS)
  | .Swimming a d w lp cp =>
      ((Training.Swimming a d w lp cp).get_mean_speed + SWIM_CALORIE_1)
        * SWIM_CALORIE_2 * w

/-- Python `self.__class__.__name__` for each variant. -/
def Training.class_name : Training → String
  | .Running _ _ _ => "Running"
  | .SportsWalking _ _ _ _ => "SportsWalking"
  | .Swimming _ _ _ _ _ => "Swimming"

/-- The `InfoMessage` dataclass. -/
structure InfoMessage where
  training_type : String
  duration : ℚ
  distance : ℚ
  speed : ℚ
  calories : ℚ
deriving DecidableEq, Repr

/-- Three-digit zero padding of a fractional part `r < 1000`. -/
def pad3 (r : Nat) : String :=
  if r < 10 then "00" ++ toString r
  else if r < 100 then "0" ++ toString r
  else toString r

/-- Rendering of a non-negative rational with three digits after the
decimal point (round to nearest thousandth). -/
def fixed3core (q : ℚ) : String :=
  let m : Nat := (⌊q * 1000 + 1 / 2⌋).toNat
  toString (m / 1000) ++ "." ++ pad3 (m % 1000)

/-- Python `format(x, ".3f")` as used by the message template: the value
printed with exactly three digits after the decimal point.  Ties at the
half-thousandth do not arise for the values this program prints, so the
tie-breaking rule is immaterial. -/
def fixed3 (q : ℚ) : String :=
  if q < 0 then "-" ++ fixed3core (-q) else fixed3core q

/-- Method `InfoMessage.get_message`: formats `message_output`, the
template string of the source (its labels are Russian), with every
numeric field rendered via `.3f`. -/
def InfoMessage.get_message (m : InfoMessage) : String :=
  "Тип тренировки: " ++ m.training_type
    ++ "; Длительность: " ++ fixed3 m.duration
    ++ " ч.; Дистанция: " ++ fixed3 m.distance
    ++ " км; Ср. скорость: " ++ fixed3 m.speed
    ++ " км/ч; Потрачено ккал: " ++ fixed3 m.calories ++ "."

/-- The message template as the spec words it, with English labels:
used only to compare the spec sentence of C3 against the source. -/
def specGetMessage (m : InfoMessage) : String :=
  "Workout type: " ++ m.training_type
    ++ "; Duration: " ++ fixed3 m.duration
    ++ " h; Distance: " ++ fixed3 m.distance
    ++ " km; Avg speed: " ++ fixed3 m.speed
    ++ " km/h; Calories: " ++ fixed3 m.calories ++ "."

/-- Method `Training.show_training_info`: builds the `InfoMessage` from
the class name, the duration and the three computed quantities. -/
def Training.show_training_info (t : Training) : InfoMessage :=
  ⟨t.class_name, t.duration_km, t.get_distance, t.get_mean_speed,
    t.get_spent_calories⟩

/-- The two ways `read_package` can raise: `unknownWorkout` is the
`ValueError` for a code outside the table; `arityError` is the
`TypeError` Python raises when `*data` does not match the arity of the
selected constructor. -/
inductive ReadError where
  | unknownWorkout
  | arityError
deriving DecidableEq, Repr

/-- Function `read_package(workout_type, data)`: looks the code up in
the table SWM / RUN / WLK, spreads `data` positionally into the
matching constructor, and raises `ValueError` for any other code. -/
def read_package (workout_type : String) (data : List ℚ) :
    Except ReadError Training :=
  if workout_type = "SWM" then
    match data with
    | [a, d, w, lp, cp] => .ok (.Swimming a d w lp cp)
    | _ => .error .arityError
  else if workout_type = "RUN" then
    match data with
    | [a, d, w] => .ok (.Running a d w)
    | _ => .error .arityError
  else if workout_type = "WLK" then
    match data with
    | [a, d, w, h] => .ok (.SportsWalking a d w h)
    | _ => .error .arityError
  else
    .error .unknownWorkout

/-- State-passing rendering of the four `Training` methods: each Python
method body only reads attributes (no statement assigns to `self`), so
the post-state of the receiver is the receiver itself. -/
def Training.get_distance_state (t : Training) : ℚ × Training :=
  (t.get_distance, t)

/-- State-passing `get_mean_speed`; see `Training.get_distance_state`. -/
def Training.get_mean_speed_state (t : Training) : ℚ × Training :=
  (t.get_mean_speed, t)

/-- State-passing `get_spent_calories`; see
`Training.get_distance_state`. -/
def Training.get_spent_calories_state (t : Training) : ℚ × Training :=
  (t.get_spent_calories, t)

/-- State-passing `show_training_info`; see
`Training.get_distance_state`. -/
def Training.show_training_info_state (t : Training) :
    InfoMessage × Training :=
  (t.show_training_info, t)

/-- Helper: `fixed3` at a non-negative value whose rounded thousandths
count is `n`. -/
theorem fixed3_of_floor (q : ℚ) (n : ℤ) (h0 : ¬ q < 0)
    (h : ⌊q * 1000 + 1 / 2⌋ = n) :
    fixed3 q = toString (n.toNat / 1000) ++ "." ++ pad3 (n.toNat % 1000) := by
  rw [fixed3, if_neg h0, fixed3core, h]

/-- C1 counterexample: for `read_package("RUN", [15000, 1, 75])` the
code returns `(18 * 9.75 - 20) * 75 / 1000 * 60 = 699.75` calories, not
approximately `665.1` as the claim states: the value differs from
`665.1` by `34.65`. -/
theorem run_example_not_approx_665 :
    (Training.Running 15000 1 75).get_spent_calories = 699.75
    ∧ ¬ |(Training.Running 15000 1 75).get_spent_calories - 665.1| < 10 := by
  have h : (Training.Running 15000 1 75).get_spent_calories = 699.75 := by
    norm_num [Training.get_spent_calories, Training.get_mean_speed,
      Training.get_distance, Training.action, Training.duration_km, LEN_STEP,
      M_IN_KM, MINUTES_IN_HOURS, RUN_CALORIE_1, RUN_CALORIE_2]
  refine ⟨h, ?_⟩
  rw [h, abs_of_nonneg (by norm_num : (0 : ℚ) ≤ 699.75 - 665.1)]
  norm_num

/-- C1 (amended): the workout built by `read_package("RUN", [15000, 1,
75])` has `get_distance() = 15000 * 0.65 / 1000 = 9.75` km,
`get_mean_speed() = 9.75` km/h and `get_spent_calories() =
(18 * 9.75 - 20) * 75 / 1000 * 60`, which equals `699.75`. -/
theorem run_example_values :
    read_package "RUN" [15000, 1, 75]
      = Except.ok (Training.Running 15000 1 75)
    ∧ (Training.Running 15000 1 75).get_distance = 15000 * 0.65 / 1000
    ∧ (Training.Running 15000 1 75).get_distance = 9.75
    ∧ (Training.Running 15000 1 75).get_mean_speed = 9.75
    ∧ (Training.Running 15000 1 75).get_spent_calories
        = (18 * 9.75 - 20) * 75 / 1000 * 60
    ∧ (Training.Running 15000 1 75).get_spent_calories = 699.75 := by
  refine ⟨rfl, ?_, ?_, ?_, ?_, ?_⟩ <;>
    norm_num [Training.get_spent_calories, Training.get_mean_speed,
      Training.get_distance, Training.action, Training.duration_km, LEN_STEP,
      M_IN_KM, MINUTES_IN_HOURS, RUN_CALORIE_1, RUN_CALORIE_2]

/-- C5: for every swimming workout with positive duration,
`get_mean_speed()` is `length_pool * count_pool / 1000 / duration` and
`get_spent_calories()` is `(mean_speed + 1.1) * 2 * weight`; for the
data `[720, 1, 80, 25, 40]` the speed is `1.0` and the calories are
`336.0`. -/
theorem swimming_speed_and_calories :
    (∀ a d w lp cp : ℚ, 0 < d →
        (Training.Swimming a d w lp cp).get_mean_speed = lp * cp / 1000 / d
        ∧ (Training.Swimming a d w lp cp).get_spent_calories
            = ((Training.Swimming a d w lp cp).get_mean_speed + 1.1) * 2 * w)
    ∧ (Training.Swimming 720 1 80 25 40).get_mean_speed = 1
    ∧ (Training.Swimming 720 1 80 25 40).get_spent_calories = 336 := by
  refine ⟨fun a d w lp cp _ => ⟨rfl, rfl⟩, ?_, ?_⟩ <;>
    norm_num [Training.get_spent_calories, Training.get_mean_speed,
      M_IN_KM, SWIM_CALORIE_1, SWIM_CALORIE_2]

/-- C5 witness: the swimming formulas at the concrete workout
`[720, 1, 80, 25, 40]`, whose duration `1` is positive. -/
theorem swimming_speed_and_calories_witness :
    (Training.Swimming 720 1 80 25 40).get_mean_speed = 25 * 40 / 1000 / 1
    ∧ (Training.Swimming 720 1 80 25 40).get_spent_calories
        = ((Training.Swimming 720 1 80 25 40).get_mean_speed + 1.1) * 2 * 80 :=
  swimming_speed_and_calories.1 720 1 80 25 40 (by norm_num)

/-- C6: the step length is `0.65` for running and walking and `1.38`
for swimming, so `get_distance()` is `action * 0.65 / 1000` for Running
and SportsWalking and `action * 1.38 / 1000` for Swimming. -/
theorem len_step_and_distance :
    (∀ a d w : ℚ, LEN_STEP (Training.Running a d w) = 0.65
        ∧ (Training.Running a d w).get_distance = a * 0.65 / 1000)
    ∧ (∀ a d w h : ℚ, LEN_STEP (Training.SportsWalking a d w h) = 0.65
        ∧ (Training.SportsWalking a d w h).get_distance = a * 0.65 / 1000)
    ∧ (∀ a d w lp cp : ℚ, LEN_STEP (Training.Swimming a d w lp cp) = 1.38
        ∧ (Training.Swimming a d w lp cp).get_distance = a * 1.38 / 1000) :=
  ⟨fun a d w => ⟨rfl, rfl⟩, fun a d w h => ⟨rfl, rfl⟩,
    fun a d w lp cp => ⟨rfl, rfl⟩⟩

/-- C8: the state-passing renderings of the four methods leave the
receiver unchanged, and a method called after another method (in any
order) returns the same value as when called first. -/
theorem training_methods_pure :
    ∀ t : Training,
      (t.get_distance_state).2 = t
      ∧ (t.get_mean_speed_state).2 = t
      ∧ (t.get_spent_calories_state).2 = t
      ∧ (t.show_training_info_state).2 = t
      ∧ ((t.get_spent_calories_state).2.get_distance_state).1
          = (t.get_distance_state).1
      ∧ ((t.get_distance_state).2.get_spent_calories_state).1
          = (t.get_spent_calories_state).1
      ∧ ((t.show_training_info_state).2.show_training_info_state).1
          = (t.show_training_info_state).1 :=
  fun t => ⟨rfl, rfl, rfl, rfl, rfl, rfl, rfl⟩

/-- C2: for every walking workout with positive duration and height,
`get_spent_calories()` is `(0.035 * weight + (mean_speed squared,
floor-divided by height) * 0.029 * weight) * (duration * 60)`, and at
the data `[9000, 1, 75, 180]` it equals
`(0.035 * 75 + (5.85 ^ 2 // 180) * 0.029 * 75) * 60`. -/
theorem sportsWalking_calories_formula :
    (∀ a d w h : ℚ, 0 < d → 0 < h →
        (Training.SportsWalking a d w h).get_spent_calories
          = (0.035 * w
              + ((⌊(Training.SportsWalking a d w h).get_mean_speed ^ 2
                    / h⌋ : ℤ) : ℚ) * 0.029 * w) * (d * 60))
    ∧ (Training.SportsWalking 9000 1 75 180).get_spent_calories
        = (0.035 * 75 + ((⌊(5.85 : ℚ) ^ 2 / 180⌋ : ℤ) : ℚ) * 0.029 * 75)
            * 60 := by
  constructor
  · intro a d w h _ _
    rfl
  · have h1 : ⌊(Training.SportsWalking 9000 1 75 180).get_mean_speed ^ 2
        / (180 : ℚ)⌋ = 0 := by
      rw [Int.floor_eq_iff]
      norm_num [Training.get_mean_speed, Training.get_distance,
        Training.action, Training.duration_km, LEN_STEP, M_IN_KM]
    have h2 : ⌊(5.85 : ℚ) ^ 2 / 180⌋ = 0 := by
      rw [Int.floor_eq_iff]
      norm_num
    rw [Training.get_spent_calories, h1, h2]
    norm_num [Training.duration_km, WALK_CALORIE_1, WALK_CALORIE_2,
      MINUTES_IN_HOURS]

/-- C2 witness: the walking formula applied at the concrete workout
`[9000, 1, 75, 180]`, whose duration and height are positive. -/
theorem sportsWalking_calories_formula_witness :
    (Training.SportsWalking 9000 1 75 180).get_spent_calories
      = (0.035 * 75
          + ((⌊(Training.SportsWalking 9000 1 75 180).get_mean_speed ^ 2
                / (180 : ℚ)⌋ : ℤ) : ℚ) * 0.029 * 75) * (1 * 60) :=
  sportsWalking_calories_formula.1 9000 1 75 180 (by norm_num) (by norm_num)

/-- C4: `read_package` returns the unknown-workout error exactly when
the code is outside {SWM, RUN, WLK}, and for each code in the table it
builds the matching variant from the positional data. -/
theorem read_package_dispatch :
    (∀ (code : String) (data : List ℚ),
        read_package code data = Except.error ReadError.unknownWorkout
          ↔ code ∉ (["SWM", "RUN", "WLK"] : List String))
    ∧ (∀ a d w lp cp : ℚ,
        read_package "SWM" [a, d, w, lp, cp]
          = Except.ok (Training.Swimming a d w lp cp))
    ∧ (∀ a d w : ℚ,
        read_package "RUN" [a, d, w] = Except.ok (Training.Running a d w))
    ∧ (∀ a d w h : ℚ,
        read_package "WLK" [a, d, w, h]
          = Except.ok (Training.SportsWalking a d w h)) := by
  refine ⟨?_, fun a d w lp cp => rfl, fun a d w => rfl, fun a d w h => rfl⟩
  intro code data
  constructor
  · intro hEq hMem
    simp only [List.mem_cons, List.not_mem_nil, or_false] at hMem
    rcases hMem with h | h | h <;> subst h <;>
      rcases data with _ | ⟨a, _ | ⟨d, _ | ⟨w, _ | ⟨x, _ | ⟨y, _ | rest⟩⟩⟩⟩⟩ <;>
      simp [read_package] at hEq
  · intro hNot
    have h1 : ¬ code = "SWM" := fun h => hNot (by simp [h])
    have h2 : ¬ code = "RUN" := fun h => hNot (by simp [h])
    have h3 : ¬ code = "WLK" := fun h => hNot (by simp [h])
    simp only [read_package, if_neg h1, if_neg h2, if_neg h3]

/-- C4 witness: an unknown code fails with the unknown-workout error,
and a known code builds its variant. -/
theorem read_package_dispatch_witness :
    read_package "XYZ" [1, 2, 3] = Except.error ReadError.unknownWorkout
    ∧ read_package "RUN" [15000, 1, 75]
        = Except.ok (Training.Running 15000 1 75) :=
  ⟨(read_package_dispatch.1 "XYZ" [1, 2, 3]).mpr (by decide),
    read_package_dispatch.2.2.1 15000 1 75⟩

/-- Helper: the `.3f` rendering of `1`. -/
theorem fixed3_one : fixed3 (1 : ℚ) = "1.000" := by
  rw [fixed3_of_floor 1 1000 (by norm_num)
    (by rw [Int.floor_eq_iff]; norm_num)]
  rfl

/-- Helper: the `.3f` rendering of `9.75`. -/
theorem fixed3_nine_75 : fixed3 (9.75 : ℚ) = "9.750" := by
  rw [fixed3_of_floor 9.75 9750 (by norm_num)
    (by rw [Int.floor_eq_iff]; norm_num)]
  rfl

/-- Helper: the `.3f` rendering of `699.75`. -/
theorem fixed3_699_75 : fixed3 (699.75 : ℚ) = "699.750" := by
  rw [fixed3_of_floor 699.75 699750 (by norm_num)
    (by rw [Int.floor_eq_iff]; norm_num)]
  rfl

/-- C3 counterexample: at the result summary of the RUN example the
formatter does not produce the English-labelled string the claim
quotes: the template of the source has Russian labels (`Тип
тренировки`, `Длительность`, ...), so the two renderings differ. -/
theorem message_not_english_template :
    InfoMessage.get_message ⟨"Running", 1, 9.75, 9.75, 699.75⟩
      ≠ specGetMessage ⟨"Running", 1, 9.75, 9.75, 699.75⟩ := by
  simp only [InfoMessage.get_message, specGetMessage, fixed3_one,
    fixed3_nine_75, fixed3_699_75]
  decide

/-- C3 (amended): the formatter produces exactly the template of the
source, whose labels are Russian — `"Тип тренировки: {name};
Длительность: {duration} ч.; Дистанция: {distance} км; Ср. скорость:
{speed} км/ч; Потрачено ккал: {calories}."` — with every float
rendered to exactly 3 decimal places (`pad3` always yields 3 fractional
digits, as sampled on `1`, `9.75` and `699.75`). -/
theorem message_russian_template :
    (∀ m : InfoMessage, m.get_message
        = "Тип тренировки: " ++ m.training_type
          ++ "; Длительность: " ++ fixed3 m.duration
          ++ " ч.; Дистанция: " ++ fixed3 m.distance
          ++ " км; Ср. скорость: " ++ fixed3 m.speed
          ++ " км/ч; Потрачено ккал: " ++ fixed3 m.calories ++ ".")
    ∧ (∀ r : Fin 1000, (pad3 r.val).length = 3)
    ∧ fixed3 (1 : ℚ) = "1.000"
    ∧ fixed3 (9.75 : ℚ) = "9.750"
    ∧ fixed3 (699.75 : ℚ) = "699.750" := by
  refine ⟨fun m => rfl, ?_, fixed3_one, fixed3_nine_75, fixed3_699_75⟩
  set_option maxRecDepth 10000 in decide

/-- C7: for every variant with all-positive numeric inputs,
`get_distance()` and `get_mean_speed()` are non-negative. -/
theorem distance_and_speed_nonneg :
    (∀ a d w : ℚ, 0 < a → 0 < d → 0 < w →
        0 ≤ (Training.Running a d w).get_distance
        ∧ 0 ≤ (Training.Running a d w).get_mean_speed)
    ∧ (∀ a d w h : ℚ, 0 < a → 0 < d → 0 < w → 0 < h →
        0 ≤ (Training.SportsWalking a d w h).get_distance
        ∧ 0 ≤ (Training.SportsWalking a d w h).get_mean_speed)
    ∧ (∀ a d w lp cp : ℚ, 0 < a → 0 < d → 0 < w → 0 < lp → 0 < cp →
        0 ≤ (Training.Swimming a d w lp cp).get_distance
        ∧ 0 ≤ (Training.Swimming a d w lp cp).get_mean_speed) := by
  refine ⟨fun a d w ha hd hw => ?_, fun a d w h ha hd hw hh => ?_,
    fun a d w lp cp ha hd hw hlp hcp => ?_⟩
  · have hdist : (0 : ℚ) ≤ a * 0.65 / 1000 :=
      div_nonneg (mul_nonneg ha.le (by norm_num)) (by norm_num)
    exact ⟨hdist, div_nonneg hdist hd.le⟩
  · have hdist : (0 : ℚ) ≤ a * 0.65 / 1000 :=
      div_nonneg (mul_nonneg ha.le (by norm_num)) (by norm_num)
    exact ⟨hdist, div_nonneg hdist hd.le⟩
  · have hdist : (0 : ℚ) ≤ a * 1.38 / 1000 :=
      div_nonneg (mul_nonneg ha.le (by norm_num)) (by norm_num)
    have hsp : (0 : ℚ) ≤ lp * cp / 1000 / d :=
      div_nonneg (div_nonneg (mul_nonneg hlp.le hcp.le) (by norm_num)) hd.le
    exact ⟨hdist, hsp⟩

/-- C7 witness: non-negativity at the three example workouts of the
program, whose inputs are all positive. -/
theorem distance_and_speed_nonneg_witness :
    (0 ≤ (Training.Running 15000 1 75).get_distance
      ∧ 0 ≤ (Training.Running 15000 1 75).get_mean_speed)
    ∧ (0 ≤ (Training.SportsWalking 9000 1 75 180).get_distance
      ∧ 0 ≤ (Training.SportsWalking 9000 1 75 180).get_mean_speed)
    ∧ (0 ≤ (Training.Swimming 720 1 80 25 40).get_distance
      ∧ 0 ≤ (Training.Swimming 720 1 80 25 40).get_mean_speed) :=
  ⟨distance_and_speed_nonneg.1 15000 1 75
      (by norm_num) (by norm_num) (by norm_num),
    distance_and_speed_nonneg.2.1 9000 1 75 180
      (by norm_num) (by norm_num) (by norm_num) (by norm_num),
    distance_and_speed_nonneg.2.2 720 1 80 25 40
      (by norm_num) (by norm_num) (by norm_num) (by norm_num) (by norm_num)⟩

/-- C9: for a walking workout with positive duration and height whose
squared mean speed is below its height, the floor term vanishes and the
calories are exactly `0.035 * weight * duration * 60`, independent of
the step count; the WLK example `[9000, 1, 75, 180]` is in this regime
and yields `0.035 * 75 * 1 * 60 = 157.5`. -/
theorem walking_low_speed_calories :
    (∀ a d w h : ℚ, 0 < d → 0 < h →
        (Training.SportsWalking a d w h).get_mean_speed ^ 2 < h →
        (Training.SportsWalking a d w h).get_spent_calories
          = 0.035 * w * d * 60)
    ∧ (Training.SportsWalking 9000 1 75 180).get_mean_speed ^ 2 < 180
    ∧ (Training.SportsWalking 9000 1 75 180).get_spent_calories
        = 0.035 * 75 * 1 * 60 := by
  have key : ∀ a d w h : ℚ, 0 < d → 0 < h →
      (Training.SportsWalking a d w h).get_mean_speed ^ 2 < h →
      (Training.SportsWalking a d w h).get_spent_calories
        = 0.035 * w * d * 60 := by
    intro a d w h _ hh hlt
    have hfl : ⌊(Training.SportsWalking a d w h).get_mean_speed ^ 2 / h⌋
        = 0 := by
      rw [Int.floor_eq_iff]
      refine ⟨?_, ?_⟩
      · push_cast
        exact div_nonneg (sq_nonneg _) hh.le
      · push_cast
        rw [zero_add, div_lt_one hh]
        exact hlt
    show (WALK_CALORIE_1 * w
        + ((⌊(Training.SportsWalking a d w h).get_mean_speed ^ 2 / h⌋ : ℤ) : ℚ)
          * WALK_CALORIE_2 * w) * (d * MINUTES_IN_HOURS) = 0.035 * w * d * 60
    rw [hfl]
    norm_num [WALK_CALORIE_1, MINUTES_IN_HOURS]
    ring
  have hsq : (Training.SportsWalking 9000 1 75 180).get_mean_speed ^ 2
      < 180 := by
    norm_num [Training.get_mean_speed, Training.get_distance,
      Training.action, Training.duration_km, LEN_STEP, M_IN_KM]
  exact ⟨key, hsq,
    key 9000 1 75 180 (by norm_num) (by norm_num) hsq⟩

/-- C9 witness: the low-speed walking regime at the WLK example
`[9000, 1, 75, 180]`, discharging all three hypotheses there. -/
theorem walking_low_speed_calories_witness :
    (Training.SportsWalking 9000 1 75 180).get_spent_calories
      = 0.035 * 75 * 1 * 60 :=
  walking_low_speed_calories.1 9000 1 75 180 (by norm_num) (by norm_num)
    (by norm_num [Training.get_mean_speed, Training.get_distance,
      Training.action, Training.duration_km, LEN_STEP, M_IN_KM])

/-- C10: a running workout with all-positive inputs whose mean speed is
below `10/9` km/h burns a strictly negative number of calories; at
`[1000, 1, 75]` the speed is `0.65` and the calories are negative. -/
theorem running_low_speed_negative_calories :
    (∀ a d w : ℚ, 0 < a → 0 < d → 0 < w →
        (Training.Running a d w).get_mean_speed < 10 / 9 →
        (Training.Running a d w).get_spent_calories < 0)
    ∧ (Training.Running 1000 1 75).get_mean_speed = 0.65
    ∧ (Training.Running 1000 1 75).get_spent_calories < 0 := by
  have key : ∀ a d w : ℚ, 0 < a → 0 < d → 0 < w →
      (Training.Running a d w).get_mean_speed < 10 / 9 →
      (Training.Running a d w).get_spent_calories < 0 := by
    intro a d w _ hd hw hs
    show (RUN_CALORIE_1 * (Training.Running a d w).get_mean_speed
        - RUN_CALORIE_2) * w / M_IN_KM * (d * MINUTES_IN_HOURS) < 0
    have h1 : RUN_CALORIE_1 * (Training.Running a d w).get_mean_speed
        - RUN_CALORIE_2 < 0 := by
      have h18 := mul_lt_mul_of_pos_left hs (by norm_num : (0 : ℚ) < 18)
      rw [RUN_CALORIE_1, RUN_CALORIE_2]
      nlinarith
    have h2 : (RUN_CALORIE_1 * (Training.Running a d w).get_mean_speed
        - RUN_CALORIE_2) * w / M_IN_KM < 0 := by
      rw [M_IN_KM]
      exact div_neg_of_neg_of_pos (mul_neg_of_neg_of_pos h1 hw) (by norm_num)
    have h3 : (0 : ℚ) < d * MINUTES_IN_HOURS := by
      rw [MINUTES_IN_HOURS]
      exact mul_pos hd (by norm_num)
    exact mul_neg_of_neg_of_pos h2 h3
  refine ⟨key, ?_, ?_⟩
  · norm_num [Training.get_mean_speed, Training.get_distance,
      Training.action, Training.duration_km, LEN_STEP, M_IN_KM]
  · exact key 1000 1 75 (by norm_num) (by norm_num) (by norm_num)
      (by norm_num [Training.get_mean_speed, Training.get_distance,
        Training.action, Training.duration_km, LEN_STEP, M_IN_KM])

/-- C10 witness: the workout `[1000, 1, 75]` has speed `0.65 < 10/9`
and its calorie count is strictly negative. -/
theorem running_low_speed_negative_calories_witness :
    (Training.Running 1000 1 75).get_spent_calories < 0 :=
  running_low_speed_negative_calories.1 1000 1 75 (by norm_num)
    (by norm_num) (by norm_num)
    (by norm_num [Training.get_mean_speed, Training.get_distance,
      Training.action, Training.duration_km, LEN_STEP, M_IN_KM])
